import Mathlib

/-!
Shallow embedding of the V4L2 capture core of `src/video_v4l2.c` (the
"motion" capture layer), together with theorems settling the claims of the
natural-language specification against it.

Conventions of the embedding:
* C `int` values are modelled as `Int`; no arithmetic here approaches the
  32-bit overflow boundary on the inputs considered.
* C `/` and `%` (truncation toward zero) are `Int.tdiv` / `Int.tmod`.
* `ioctl` calls and other hardware interactions are modelled by explicit
  oracles (a list of outcomes, or functions describing the device's
  responses), passed as parameters.
* Strings held in `char *` fields are Lean `String`s.  The source's
  case-insensitive comparison `mystrceq` is modelled via `String.toLower`;
  numeric parameter values stored as strings and read back with `atoi`
  are modelled as the already-parsed integers (`sprintf "%d"` /`atoi`
  round-trip is the identity on the integers involved).
-/

namespace MotionV4L2

/-! ## Pixel format catalog (`v4l2_palette_init`, lines 91-128) -/

/-- Little-endian packing of a four-character code, as in `v4l2_fourcc`. -/
def fourcc (a b c d : Char) : Nat :=
  a.toNat + 256 * b.toNat + 65536 * c.toNat + 16777216 * d.toNat

def V4L2_PIX_FMT_SN9C10X : Nat := fourcc 'S' '9' '1' '0'
def V4L2_PIX_FMT_SBGGR16 : Nat := fourcc 'B' 'Y' 'R' '2'
def V4L2_PIX_FMT_SBGGR8  : Nat := fourcc 'B' 'A' '8' '1'
def V4L2_PIX_FMT_SPCA561 : Nat := fourcc 'S' '5' '6' '1'
def V4L2_PIX_FMT_SGBRG8  : Nat := fourcc 'G' 'B' 'R' 'G'
def V4L2_PIX_FMT_SGRBG8  : Nat := fourcc 'G' 'R' 'B' 'G'
def V4L2_PIX_FMT_PAC207  : Nat := fourcc 'P' '2' '0' '7'
def V4L2_PIX_FMT_PJPG    : Nat := fourcc 'P' 'J' 'P' 'G'
def V4L2_PIX_FMT_MJPEG   : Nat := fourcc 'M' 'J' 'P' 'G'
def V4L2_PIX_FMT_JPEG    : Nat := fourcc 'J' 'P' 'E' 'G'
def V4L2_PIX_FMT_RGB24   : Nat := fourcc 'R' 'G' 'B' '3'
def V4L2_PIX_FMT_SPCA501 : Nat := fourcc 'S' '5' '0' '1'
def V4L2_PIX_FMT_SPCA505 : Nat := fourcc 'S' '5' '0' '5'
def V4L2_PIX_FMT_SPCA508 : Nat := fourcc 'S' '5' '0' '8'
def V4L2_PIX_FMT_UYVY    : Nat := fourcc 'U' 'Y' 'V' 'Y'
def V4L2_PIX_FMT_YUYV    : Nat := fourcc 'Y' 'U' 'Y' 'V'
def V4L2_PIX_FMT_YUV422P : Nat := fourcc '4' '2' '2' 'P'
def V4L2_PIX_FMT_YUV420  : Nat := fourcc 'Y' 'U' '1' '2'
def V4L2_PIX_FMT_Y10     : Nat := fourcc 'Y' '1' '0' ' '
def V4L2_PIX_FMT_Y12     : Nat := fourcc 'Y' '1' '2' ' '
def V4L2_PIX_FMT_GREY    : Nat := fourcc 'G' 'R' 'E' 'Y'
def V4L2_PIX_FMT_H264    : Nat := fourcc 'H' '2' '6' '4'

def V4L2_PALETTE_COUNT_MAX : Nat := 21

/-- The `v4l2id` column of `palette_array` filled by `v4l2_palette_init`,
indexed by palette number 0..21. -/
def paletteIds : List Nat :=
  [V4L2_PIX_FMT_SN9C10X, V4L2_PIX_FMT_SBGGR16, V4L2_PIX_FMT_SBGGR8,
   V4L2_PIX_FMT_SPCA561, V4L2_PIX_FMT_SGBRG8, V4L2_PIX_FMT_SGRBG8,
   V4L2_PIX_FMT_PAC207, V4L2_PIX_FMT_PJPG, V4L2_PIX_FMT_MJPEG,
   V4L2_PIX_FMT_JPEG, V4L2_PIX_FMT_RGB24, V4L2_PIX_FMT_SPCA501,
   V4L2_PIX_FMT_SPCA505, V4L2_PIX_FMT_SPCA508, V4L2_PIX_FMT_UYVY,
   V4L2_PIX_FMT_YUYV, V4L2_PIX_FMT_YUV422P, V4L2_PIX_FMT_YUV420,
   V4L2_PIX_FMT_Y10, V4L2_PIX_FMT_Y12, V4L2_PIX_FMT_GREY,
   V4L2_PIX_FMT_H264]

/-! ## `xioctl` (lines 130-143)

The C loop is
  do ret = ioctl(fd, request, arg);
  while (-1 == ret && EINTR == errno && !vid_source->finish);
`finish` is a `volatile unsigned int *` pointer, set by `v4l2_device_init`
(line 1352) to `&cnt->finish`; the guard `!vid_source->finish` tests the
pointer itself for NULL, not the value it points to.  We model the pointer
as `Option Nat` (`none` = NULL, `some v` = points at a flag holding `v`)
and the successive results of the underlying `ioctl` as a list: each entry
is the result of one (re)issue of the call. -/

inductive IoRes where
  | ok : IoRes
  | err : Nat → IoRes
deriving DecidableEq, Repr

def EINTR : Nat := 4

/-- Model of `xioctl`: issue the call, and reissue it while the result is -1 with
`errno = EINTR` and `!vid_source->finish` holds (i.e. the `finish` pointer
is NULL).  An exhausted outcome trace is reported as still-interrupted. -/
def xioctl (finish : Option Nat) : List IoRes → IoRes
  | [] => IoRes.err EINTR
  | r :: rest =>
      if r = IoRes.err EINTR ∧ finish = none then xioctl finish rest else r

/-! ## Ownership scheduler (`v4l2_next`, lines 1800-1850)

The ownership bookkeeping of `v4l2_next` around one capture call:

    if (dev->owner != cnt->threadnr) {
        pthread_mutex_lock(&dev->mutex);
        dev->owner = cnt->threadnr;
        dev->frames = conf->roundrobin_frames;
    }
    ... capture / convert (one frame delivery attempt) ...
    if (--dev->frames <= 0) {
        dev->owner = -1;
        dev->frames = 0;
        pthread_mutex_unlock(&dev->mutex);
    }

State: `owner` (-1 when unowned), the remaining `frames` quota, and who
currently holds `dev->mutex`.  One call by thread `t` is `stepOwn q t s`;
it returns `none` when the call would block on the mutex (owner differs
and the mutex is held), otherwise the post-state together with the value
of `dev->owner` in effect during this call's frame delivery.  The quota
decrement happens on every call, whether or not the capture succeeded,
exactly as in the source. -/

structure OwnState where
  owner : Int
  frames : Int
  mutexOwner : Option Int
deriving DecidableEq, Repr

/-- The unowned state: `owner = -1`, no quota, mutex free. -/
def own0 : OwnState := ⟨-1, 0, none⟩

/-- The trailing `if (--dev->frames <= 0)` release. -/
def deliverOwn (s : OwnState) : OwnState × Int :=
  let f := s.frames - 1
  if f ≤ 0 then (own0, s.owner) else (⟨s.owner, f, s.mutexOwner⟩, s.owner)

/-- One `v4l2_next` call's ownership transitions for thread `t` with
configured quota `q` (`conf->roundrobin_frames`). -/
def stepOwn (q t : Int) (s : OwnState) : Option (OwnState × Int) :=
  if s.owner ≠ t then
    if s.mutexOwner.isSome then none
    else some (deliverOwn ⟨t, q, some t⟩)
  else some (deliverOwn s)

/-- A sequence of `v4l2_next` calls by the listed threads; returns the final
state and, per call, the owner in effect during that call's delivery. -/
def runOwn (q : Int) : OwnState → List Int → Option (OwnState × List Int)
  | s, [] => some (s, [])
  | s, t :: ts =>
      match stepOwn q t s with
      | none => none
      | some (s', o) =>
          match runOwn q s' ts with
          | none => none
          | some (s'', os) => some (s'', o :: os)

/-! ## Device registry (`v4l2_start` lines 1621-1729, `v4l2_cleanup` lines 1731-1798)

A device handle as far as the registry is concerned; the registry is the
`video_devices` linked list (new handles inserted at the head).  Teardown
side effects are recorded as events: the stream-off issued by
`v4l2_device_close`, the buffer unmapping and control-list release done by
`v4l2_device_cleanup`, and removal from the list.  A `negotiate` event
records that the full hardware negotiation chain of `v4l2_start` ran. -/

structure VideoDev where
  video_device : String
  fd_device : Int
  usage_count : Int
deriving DecidableEq, Repr

inductive DevEvent where
  | negotiate : String → DevEvent
  | streamoff : Int → DevEvent
  | unmap : Int → DevEvent
  | ctrlfree : Int → DevEvent
  | removed : Int → DevEvent
deriving DecidableEq, Repr

/-- The find-and-share scan at the top of `v4l2_start`: first handle whose
`video_device` equals the requested path gets `usage_count++` and its
`fd_device` is returned. -/
def startFind : List VideoDev → String → Option (List VideoDev × Int)
  | [], _ => none
  | d :: rest, path =>
      if d.video_device == path then
        some ({ d with usage_count := d.usage_count + 1 } :: rest, d.fd_device)
      else
        match startFind rest path with
        | some (rest', fd) => some (d :: rest', fd)
        | none => none

/-- Model of `v4l2_start`: share an already-open handle for the same path, else run
full negotiation (outcome `negOk`, opened descriptor `newfd`); a new handle
starts with `usage_count = 1` (`v4l2_device_init`) and is inserted at the
head of the list; a failed negotiation leaves no handle behind. -/
def v4l2_start (reg : List VideoDev) (path : String) (newfd : Int)
    (negOk : Bool) : List VideoDev × Int × List DevEvent :=
  match startFind reg path with
  | some (reg', fd) => (reg', fd, [])
  | none =>
      if negOk then
        (⟨path, newfd, 1⟩ :: reg, newfd, [DevEvent.negotiate path])
      else (reg, -1, [DevEvent.negotiate path])

/-- Model of `v4l2_cleanup`: find the handle by file descriptor; decrement
`usage_count`; only the decrement that reaches zero issues stream-off,
unmaps the buffers, releases the control list and unlinks the handle. -/
def v4l2_cleanup : List VideoDev → Int → List VideoDev × List DevEvent
  | [], _ => ([], [])
  | d :: rest, fd =>
      if d.fd_device == fd then
        if d.usage_count - 1 == 0 then
          (rest, [DevEvent.streamoff fd, DevEvent.unmap fd,
                  DevEvent.ctrlfree fd, DevEvent.removed fd])
        else ({ d with usage_count := d.usage_count - 1 } :: rest, [])
      else
        let r := v4l2_cleanup rest fd
        (d :: r.1, r.2)

/-! ## Control descriptors and user parameters

`struct vid_devctrl_ctx` and `struct params_item_ctx` as used by the
control manager.  `param_value` is the `atoi`-parsed integer of the user's
string value. -/

def V4L2_CTRL_TYPE_INTEGER : Int := 1
def V4L2_CTRL_TYPE_BOOLEAN : Int := 2
def V4L2_CTRL_TYPE_MENU : Int := 3

def V4L2_CID_BRIGHTNESS : Int := 9963776
def V4L2_CID_EXPOSURE : Int := 9963793
def V4L2_CID_EXPOSURE_ABSOLUTE : Int := 10094865

structure DevCtrl where
  ctrl_id : Int
  ctrl_type : Int
  ctrl_minimum : Int
  ctrl_maximum : Int
  ctrl_currval : Int
  ctrl_newval : Int
  ctrl_menuitem : Bool
  ctrl_name : String
  ctrl_iddesc : String
deriving DecidableEq, Repr

structure ParmItem where
  param_name : String
  param_value : Int
deriving DecidableEq, Repr

/-- Case-insensitive string equality (`mystrceq`), computed over the
underlying character lists. -/
def mystrceq (a b : String) : Bool :=
  a.data.map Char.toLower == b.data.map Char.toLower

/-- Result of `sprintf "ID%08d"` for the (nonnegative) control identifiers used here. -/
def idDesc (n : Int) : String :=
  let s := toString n.toNat
  "ID" ++ String.mk (List.replicate (8 - s.length) '0') ++ s

/-- The user-parameter name match used throughout the control manager:
`mystrceq(devitem->ctrl_iddesc, param_name) || mystrceq(devitem->ctrl_name, param_name)`. -/
def parmMatch (d : DevCtrl) (p : ParmItem) : Bool :=
  mystrceq d.ctrl_iddesc p.param_name || mystrceq d.ctrl_name p.param_name

/-! ## Control staging pass (`v4l2_parms_set`, lines 411-464)

For each control descriptor, every user parameter whose name matches is
folded in: integer/menu values are clamped to `[minimum, maximum]` with a
warning logged per clamp, boolean values map to 0/1, other types log an
unsupported-type warning.  The returned `Nat` counts only the clamping
warnings ("is below minimum"/"is above maximum"). -/

def parmApply (d : DevCtrl) (p : ParmItem) : DevCtrl × Nat :=
  if parmMatch d p then
    if d.ctrl_type = V4L2_CTRL_TYPE_MENU ∨ d.ctrl_type = V4L2_CTRL_TYPE_INTEGER then
      if p.param_value < d.ctrl_minimum then
        ({ d with ctrl_newval := d.ctrl_minimum }, 1)
      else if p.param_value > d.ctrl_maximum then
        ({ d with ctrl_newval := d.ctrl_maximum }, 1)
      else ({ d with ctrl_newval := p.param_value }, 0)
    else if d.ctrl_type = V4L2_CTRL_TYPE_BOOLEAN then
      ({ d with ctrl_newval := if p.param_value ≠ 0 then 1 else 0 }, 0)
    else (d, 0)
  else (d, 0)

/-- One iteration of the inner user-parameter loop: apply the parameter
and accumulate its clamp warnings. -/
def parmStep (dw : DevCtrl × Nat) (p : ParmItem) : DevCtrl × Nat :=
  let r := parmApply dw.1 p
  (r.1, dw.2 + r.2)

/-- The inner user-parameter loop of `v4l2_parms_set` for one descriptor:
all matching parameters are applied in order (a later match overwrites an
earlier one); clamp warnings are accumulated. -/
def ctrlParmsSet (d : DevCtrl) (ps : List ParmItem) : DevCtrl × Nat :=
  ps.foldl parmStep (d, 0)

/-- Model of `v4l2_parms_set` over the whole descriptor array: staged descriptors
plus the total clamp-warning count. -/
def v4l2_parms_set (cs : List DevCtrl) (ps : List ParmItem) :
    List DevCtrl × Nat :=
  (cs.map (fun d => (ctrlParmsSet d ps).1),
   cs.foldl (fun n d => n + (ctrlParmsSet d ps).2) 0)

/-! ## Control application (`v4l2_ctrls_set` lines 339-409, `v4l2_parm_reset` lines 307-337)

`VIDIOC_S_CTRL` outcomes are an oracle `ok : Int → Int → Bool` of the
control id and the value being set; phase 1 and phase 2 may have distinct
oracles (a phase-1 set may have enabled a sibling control, which is the
stated rationale for the retry).  Each pass walks the descriptor array in
order and attempts every non-menu-item descriptor whose requested value
differs from its current value; a successful set promotes `ctrl_currval`.
Phase 2 additionally rolls a still-failing descriptor back via
`v4l2_parm_reset` and counts the rollback warning.  Both passes also
report the list of control ids they attempted. -/

/-- A descriptor gets a set attempt: not a menu item, and requested differs
from current. -/
def ctrlEligible (d : DevCtrl) : Bool :=
  !d.ctrl_menuitem && d.ctrl_currval != d.ctrl_newval

/-- Model of `v4l2_parm_reset`: rewrite every matching user parameter to the
descriptor's last-known-good `ctrl_currval` and reset the requested value
to it. -/
def v4l2_parm_reset (ps : List ParmItem) (d : DevCtrl) :
    List ParmItem × DevCtrl :=
  (ps.map (fun p =>
      if parmMatch d p then { p with param_value := d.ctrl_currval } else p),
   { d with ctrl_newval := d.ctrl_currval })

/-- Phase 1 of `v4l2_ctrls_set`: returns the updated descriptors, whether
any attempt failed, and the attempted control ids in order. -/
def ctrlsPass1 (ok : Int → Int → Bool) : List DevCtrl →
    List DevCtrl × Bool × List Int
  | [] => ([], false, [])
  | d :: rest =>
      let r := ctrlsPass1 ok rest
      if ctrlEligible d then
        if ok d.ctrl_id d.ctrl_newval then
          ({ d with ctrl_currval := d.ctrl_newval } :: r.1, r.2.1,
           d.ctrl_id :: r.2.2)
        else (d :: r.1, true, d.ctrl_id :: r.2.2)
      else (d :: r.1, r.2.1, r.2.2)

/-- Phase 2 of `v4l2_ctrls_set`: like phase 1, but a failing attempt rolls
the descriptor back through `v4l2_parm_reset` (threading the user
parameters) and counts one rollback warning. -/
def ctrlsPass2 (ok : Int → Int → Bool) :
    List DevCtrl → List ParmItem →
    List DevCtrl × List ParmItem × Nat × List Int
  | [], ps => ([], ps, 0, [])
  | d :: rest, ps =>
      if ctrlEligible d then
        if ok d.ctrl_id d.ctrl_newval then
          let r := ctrlsPass2 ok rest ps
          ({ d with ctrl_currval := d.ctrl_newval } :: r.1, r.2.1,
           r.2.2.1, d.ctrl_id :: r.2.2.2)
        else
          let rp := v4l2_parm_reset ps d
          let r := ctrlsPass2 ok rest rp.1
          (rp.2 :: r.1, r.2.1, r.2.2.1 + 1, d.ctrl_id :: r.2.2.2)
      else
        let r := ctrlsPass2 ok rest ps
        (d :: r.1, r.2.1, r.2.2.1, r.2.2.2)

/-- Model of `v4l2_ctrls_set`: returns the C return code, the final descriptors and
user parameters, the rollback-warning count, and the attempted control ids
of phase 1 and phase 2.  `ready = false` is the `vid_source == NULL`
"Device not ready" early exit. -/
def v4l2_ctrls_set (ready : Bool) (ok1 ok2 : Int → Int → Bool)
    (cs : List DevCtrl) (ps : List ParmItem) :
    Int × List DevCtrl × List ParmItem × Nat × List Int × List Int :=
  if !ready then (-1, cs, ps, 0, [], [])
  else
    let p1 := ctrlsPass1 ok1 cs
    if p1.2.1 then
      let p2 := ctrlsPass2 ok2 p1.1 ps
      (0, p2.1, p2.2.1, p2.2.2.1, p1.2.2, p2.2.2.2)
    else (0, p1.1, ps, 0, p1.2.2, [])

/-! ## Autobrightness controller (`v4l2_autobright`, lines 466-601)

The image is the captured normalized frame, modelled as a function from
pixel index to its byte value; `motionsize` is the pixel count.  The
function is split along the source's phases: target lookup among the user
parameters, target-control lookup among the descriptors, luminance
averaging, the hysteresis decision, and staging the changed value. -/

/-- Does this descriptor (resp. parameter, by name) select the autobright
target control for the configured `method` (1 brightness, 2 exposure,
3 absolute exposure)? -/
def abCtrlSel (method : Int) (id : Int) : Bool :=
  (method == 1 && id == V4L2_CID_BRIGHTNESS) ||
  (method == 2 && id == V4L2_CID_EXPOSURE) ||
  (method == 3 && id == V4L2_CID_EXPOSURE_ABSOLUTE)

def abParmSel (method : Int) (name : String) : Bool :=
  (method == 1 && (mystrceq name ("brightness") ||
                   mystrceq name (idDesc V4L2_CID_BRIGHTNESS))) ||
  (method == 2 && (mystrceq name ("exposure") ||
                   mystrceq name (idDesc V4L2_CID_EXPOSURE))) ||
  (method == 3 && (mystrceq name ("exposure (absolute)") ||
                   mystrceq name (idDesc V4L2_CID_EXPOSURE_ABSOLUTE)))

/-- The user-parameter scan establishing `target` (-1 when absent). -/
def abTarget (params : List ParmItem) (method : Int) : Int :=
  params.foldl (fun t p =>
    if abParmSel method p.param_name then p.param_value else t) (-1)

/-- The descriptor scan establishing `device_value`, `parm_max`,
`parm_min` and possibly a midpoint `target`; the initial values are
`device_value = -1`, `parm_max = 255`, `parm_min = 0`. -/
def abCtrlScan (ctrls : List DevCtrl) (method : Int) (t0 : Int) :
    Int × Int × Int × Int :=
  ctrls.foldl (fun a d =>
    if abCtrlSel method d.ctrl_id then
      (d.ctrl_currval, d.ctrl_maximum, d.ctrl_minimum,
       if a.2.2.2 = -1 then (d.ctrl_maximum - d.ctrl_minimum).tdiv 2
       else a.2.2.2)
    else a) (-1, 255, 0, t0)

/-- Average luminance of every 10th pixel, scaled by
`(parm_max - parm_min) / 255` exactly as in the source (three separate
integer-division steps). -/
def abAvg (image : Nat → Int) (motionsize : Int) (mx mn : Int) : Int :=
  let idxs := (List.range motionsize.toNat).filter (fun i => i % 10 == 0)
  let sum := (idxs.map image).foldl (· + ·) 0
  let avg1 := sum.tdiv (idxs.length : Int)
  (avg1 * (mx - mn)).tdiv 255

/-- The hysteresis decision (lines 558-585): hysteresis and damper are both
20; `some v` stages `v` as the new requested value, `none` leaves the
control untouched. -/
def abDecide (target dv mn mx avg : Int) : Option Int :=
  let wh := min (target + 20) mx
  let wl := max (target - 20) mn
  if avg > wh then
    let step := min ((avg - target).tdiv 20 + 1) (dv - mn)
    if dv > step + 1 - mn then some (dv - step) else some mn
  else if avg < wl then
    let step := min ((target - avg).tdiv 20 + 1) (mx - dv)
    if dv < mx - step then some (dv + step) else some mx
  else none

/-- Model of `v4l2_autobright`: the whole controller; returns the descriptor array
with the staged `ctrl_newval` updated when a change was decided. -/
def v4l2_autobright (params : List ParmItem) (ctrls : List DevCtrl)
    (method : Int) (image : Nat → Int) (motionsize : Int) : List DevCtrl :=
  if method = 0 ∨ method > 3 then ctrls
  else
    let t0 := abTarget params method
    let a := abCtrlScan ctrls method t0
    if a.1 = -1 then ctrls
    else
      let avg := abAvg image motionsize a.2.1 a.2.2.1
      match abDecide a.2.2.2 a.1 a.2.2.1 a.2.1 avg with
      | none => ctrls
      | some v =>
          ctrls.map (fun d =>
            if abCtrlSel method d.ctrl_id then { d with ctrl_newval := v }
            else d)

/-! ## Format negotiation (`v4l2_pixfmt_*`, lines 772-1040)

The device side is an oracle `DevEcho`:
* `tryResult pf w h` — the `VIDIOC_TRY_FMT` response to requesting pixel
  format `pf` at `w × h`: `none` for an ioctl failure, otherwise the echoed
  pixel format, width, height and `bytesperline` the device filled in;
* `sfmtOk pf` — whether the final `VIDIOC_S_FMT` commit succeeds. -/

structure DevEcho where
  tryResult : Nat → Int → Int → Option (Nat × Int × Int × Int)
  sfmtOk : Nat → Bool

/-- Model of `v4l2_pixfmt_try` (lines 772-805): the trial fails when the ioctl does
or when the device echoes back a different pixel format; on success the
echoed width, height and stride are reported. -/
def v4l2_pixfmt_try (d : DevEcho) (pf : Nat) (w h : Int) :
    Option (Int × Int × Int) :=
  match d.tryResult pf w h with
  | none => none
  | some (epf, w', h', bpl) => if epf = pf then some (w', h', bpl) else none

/-- Model of `v4l2_pixfmt_stride` (lines 807-861): given the echoed width `wd` and
stride `bpl`, returns the (possibly padded) committed device width, or
`none` for the `wd > bpl` error. -/
def v4l2_pixfmt_stride (wd bpl : Int) : Option Int :=
  if bpl = 0 then some wd
  else if wd > bpl then none
  else if wd = bpl ∨ bpl.tmod wd = 0 then some wd
  else some (wd + (bpl.tmod wd).tdiv (bpl.tdiv wd))

/-- Model of `v4l2_pixfmt_adj` (lines 864-889): when the device dimensions differ
from the configured ones, re-validate that they are multiples of 8
(`none` aborts the negotiation of this format) and commit them into the
configuration. -/
def v4l2_pixfmt_adj (confw confh devw devh : Int) : Option (Int × Int) :=
  if devw ≠ confw ∨ devh ≠ confh then
    if devw.tmod 8 ≠ 0 ∨ devh.tmod 8 ≠ 0 then none
    else some (devw, devh)
  else some (confw, confh)

/-- Model of `v4l2_pixfmt_set` (lines 891-931): try, stride check, dimension
adjustment, then the `VIDIOC_S_FMT` commit.  Returns whether the whole
chain succeeded together with the configuration width/height after the
call — `v4l2_pixfmt_adj` mutates `cnt->conf` before the commit is issued,
so a failing commit still leaves the adjusted configuration behind. -/
def v4l2_pixfmt_set (d : DevEcho) (pf : Nat) (confw confh : Int) :
    Bool × Int × Int :=
  match v4l2_pixfmt_try d pf confw confh with
  | none => (false, confw, confh)
  | some (w', h', bpl) =>
      match v4l2_pixfmt_stride w' bpl with
      | none => (false, confw, confh)
      | some wadj =>
          match v4l2_pixfmt_adj confw confh wadj h' with
          | none => (false, confw, confh)
          | some (cw, ch) => (d.sfmtOk pf, cw, ch)

/-- The round-up-to-multiple-of-8 adjustment applied to the configured
width and height at the top of `v4l2_pixfmt_select` (lines 944-958):
`x - (x % 8) + 8` when `x % 8` is nonzero. -/
def conf_dim_adj (x : Int) : Int :=
  if x.tmod 8 ≠ 0 then x - x.tmod 8 + 8 else x

/-- The user-parameter scan for a configured `palette` index (default 17). -/
def userPaletteIdx (params : List ParmItem) : Int :=
  params.foldl (fun acc p =>
    if p.param_name == "palette" then p.param_value else acc) 17

/-- The inner catalog loop of the fallback scan of `v4l2_pixfmt_select`
(lines 1004-1009): for one advertised format `f`, walk the catalog entries
`palette_array[0..21]` in index order; a catalog match that is not H264
overwrites the running `indx_palette` accumulator. -/
def catScan (acc : Int) (f : Nat) : Int :=
  paletteIds.enum.foldl (fun a p =>
    if p.2 = f ∧ p.2 ≠ V4L2_PIX_FMT_H264 then (p.1 : Int) else a) acc

/-- The `VIDIOC_ENUM_FMT` fallback scan of `v4l2_pixfmt_select`
(lines 986-1014): walk the device's advertised formats in enumeration
order, running the catalog loop on each.  `-1` means no candidate was
found. -/
def fallbackIdx (fmts : List Nat) : Int :=
  fmts.foldl catScan (-1)

/-- Is `f` a catalog format the fallback scan may pick (in the catalog and
not H264)?  Used to state what the scan computes. -/
def catP (f : Nat) : Bool :=
  paletteIds.contains f && f != V4L2_PIX_FMT_H264

/-- The last advertised non-H264 catalog format, in device enumeration
order; the theorem below proves that the fallback scan commits to exactly
this single candidate. -/
def fallbackCandidate (fmts : List Nat) : Option Nat :=
  (fmts.filter catP).getLast?

/-- Model of `v4l2_pixfmt_select` (lines 933-1040).  `fmts` is the device's
advertised format list in enumeration order.  Returns the selected pixel
format with the final configured dimensions (`none` = fatal negotiation
error) and the list of trial configurations issued, each recorded as
(pixel format, configured width, configured height) at the time of the
trial. -/
def v4l2_pixfmt_select (d : DevEcho) (params : List ParmItem)
    (fmts : List Nat) (confw confh : Int) :
    Option (Nat × Int × Int) × List (Nat × Int × Int) :=
  let cw := conf_dim_adj confw
  let ch := conf_dim_adj confh
  let idx0 := userPaletteIdx params
  let idx := if idx0 = 21 then 17 else idx0
  if 0 ≤ idx ∧ idx ≤ (V4L2_PALETTE_COUNT_MAX : Int) then
    let pf := paletteIds.getD idx.toNat 0
    let r1 := v4l2_pixfmt_set d pf cw ch
    if r1.1 then (some (pf, r1.2.1, r1.2.2), [(pf, cw, ch)])
    else
      let fidx := fallbackIdx fmts
      if 0 ≤ fidx then
        let pf2 := paletteIds.getD fidx.toNat 0
        let r2 := v4l2_pixfmt_set d pf2 r1.2.1 r1.2.2
        if r2.1 then
          (some (pf2, r2.2.1, r2.2.2), [(pf, cw, ch), (pf2, r1.2.1, r1.2.2)])
        else (none, [(pf, cw, ch), (pf2, r1.2.1, r1.2.2)])
      else (none, [(pf, cw, ch)])
  else
    let fidx := fallbackIdx fmts
    if 0 ≤ fidx then
      let pf2 := paletteIds.getD fidx.toNat 0
      let r2 := v4l2_pixfmt_set d pf2 cw ch
      if r2.1 then (some (pf2, r2.2.1, r2.2.2), [(pf2, cw, ch)])
      else (none, [(pf2, cw, ch)])
    else (none, [])

/-! ## `v4l2_palette_valid` (lines 1852-1906)

`openOk` is whether `open(video_device, O_RDWR|O_CLOEXEC)` succeeds;
`fmts` is the advertised format list of an opened device.  The scan
latches `retcd = 1` on a match and never reports any other outcome. -/

def v4l2_palette_valid (openOk : Bool) (fmts : List Nat) (pal : Int) : Int :=
  if !openOk then 0
  else
    fmts.foldl (fun r f =>
      if paletteIds.getD pal.toNat 0 = f then 1 else r) 0

/-! ## Definitions supporting theorem statements -/

/-- Per-descriptor outcome of the two-phase control application as the
specification describes it: an eligible descriptor whose set succeeds in
phase 1 (or, failing that, in phase 2) has its current value promoted to
the requested one; a descriptor failing both phases has its requested
value rolled back to the last-known-good current value; everything else
is untouched.  `v4l2_ctrls_set` is proved to realize exactly this. -/
def ctrlsSetResultSpec (ok1 ok2 : Int → Int → Bool) (d : DevCtrl) : DevCtrl :=
  if ctrlEligible d then
    if ok1 d.ctrl_id d.ctrl_newval then { d with ctrl_currval := d.ctrl_newval }
    else if ok2 d.ctrl_id d.ctrl_newval then { d with ctrl_currval := d.ctrl_newval }
    else { d with ctrl_newval := d.ctrl_currval }
  else d

/-- A descriptor that gets rolled back: eligible for a set attempt but
failing the oracle in both phases. -/
def ctrlRolledBack (ok1 ok2 : Int → Int → Bool) (d : DevCtrl) : Bool :=
  ctrlEligible d && !(ok1 d.ctrl_id d.ctrl_newval) &&
    !(ok2 d.ctrl_id d.ctrl_newval)

/-- A device on which every format trial fails (the `VIDIOC_TRY_FMT`
ioctl itself errors). -/
def devEchoNone : DevEcho := ⟨fun _ _ _ => none, fun _ => false⟩

/-- A brightness control descriptor with range [-100, 50] currently at 40,
used as the autobrightness counterexample state. -/
def cex5ctrl : DevCtrl :=
  ⟨V4L2_CID_BRIGHTNESS, V4L2_CTRL_TYPE_INTEGER, -100, 50, 40, 40, false,
   "Brightness", idDesc V4L2_CID_BRIGHTNESS⟩

/-! # Theorems -/

/-! ## C1 -/

/-- C1: refuted by the code — `xioctl` (lines 130-143) retries an
EINTR-interrupted ioctl only while `!vid_source->finish`, which tests the
`finish` POINTER for NULL rather than the shutdown flag it points to.
`v4l2_device_init` (line 1352) wires `finish = &cnt->finish`, so for every
initialized device the pointer is non-NULL and an interrupted call is
surfaced immediately even though the shutdown flag is clear (first two
conjuncts, flag value 0 and 1 alike); the retry loop only ever runs when
the pointer is NULL (third conjunct), where no shutdown flag is consulted
at all.  This contradicts the claim and the spec's stated intent that
"transient interrupts are retried transparently" with "an explicit
shutdown flag, checked between retries" as the only abort. -/
theorem xioctl_eintr_surfaced_despite_clear_flag :
    xioctl (some 0) [IoRes.err EINTR, IoRes.ok] = IoRes.err EINTR ∧
    xioctl (some 1) [IoRes.err EINTR, IoRes.ok] = IoRes.err EINTR ∧
    xioctl none [IoRes.err EINTR, IoRes.err EINTR, IoRes.ok] = IoRes.ok := by
  decide

/-! ## C2 -/

/-- Helper for C2: a call at quota 1 from the unowned state delivers one
frame under the caller's ownership and restores the unowned state. -/
theorem stepOwn_quota_one (t : Int) : stepOwn 1 t own0 = some (own0, t) := by
  by_cases h : own0.owner = t
  · simp [stepOwn, h, deliverOwn, own0]
  · simp [stepOwn, h, deliverOwn, own0]

/-- C2: the ownership bookkeeping of `v4l2_next` (lines 1821-1839).  A
non-owning caller acquires the mutex, becomes owner and receives the
configured quota (first two conjuncts); each delivery decrements the
quota, and the owner field is cleared and the mutex released exactly when
the quota reaches zero (conjuncts 1-4); at quota 1 every call therefore
delivers exactly one frame under its caller's ownership and hands the
device back, so any request sequence — in particular two consumers
alternating — observes strictly alternating ownership with no consumer
exceeding its quota before release (last conjunct). -/
theorem v4l2_next_roundrobin_ownership :
    (∀ q t : Int, ∀ s : OwnState, s.owner ≠ t → s.mutexOwner = none →
        1 < q → stepOwn q t s = some (⟨t, q - 1, some t⟩, t)) ∧
    (∀ q t : Int, ∀ s : OwnState, s.owner ≠ t → s.mutexOwner = none →
        q ≤ 1 → stepOwn q t s = some (own0, t)) ∧
    (∀ q t : Int, ∀ s : OwnState, s.owner = t → 1 < s.frames →
        stepOwn q t s = some (⟨t, s.frames - 1, s.mutexOwner⟩, t)) ∧
    (∀ q t : Int, ∀ s : OwnState, s.owner = t → s.frames ≤ 1 →
        stepOwn q t s = some (own0, t)) ∧
    (∀ ts : List Int, runOwn 1 own0 ts = some (own0, ts)) := by
  refine ⟨?_, ?_, ?_, ?_, ?_⟩
  · intro q t s h1 h2 h3
    simp [stepOwn, h1, h2, deliverOwn]
    omega
  · intro q t s h1 h2 h3
    simp [stepOwn, h1, h2, deliverOwn]
    omega
  · intro q t s h1 h3
    simp [stepOwn, h1, deliverOwn]
    intro hc
    omega
  · intro q t s h1 h3
    simp [stepOwn, h1, deliverOwn]
    intro hc
    omega
  · intro ts
    induction ts with
    | nil => rfl
    | cons t ts ih => simp [runOwn, stepOwn_quota_one, ih]

/-- Witness for C2 at concrete inputs. -/
theorem v4l2_next_roundrobin_ownership_witness :
    stepOwn 3 0 own0 = some (⟨0, 3 - 1, some 0⟩, 0) ∧
    stepOwn 1 5 own0 = some (own0, 5) ∧
    stepOwn 9 7 ⟨7, 4, some 7⟩ = some (⟨7, 4 - 1, some 7⟩, 7) ∧
    stepOwn 9 7 ⟨7, 1, some 7⟩ = some (own0, 7) ∧
    runOwn 1 own0 [0, 1, 0, 1] = some (own0, [0, 1, 0, 1]) :=
  ⟨v4l2_next_roundrobin_ownership.1 3 0 own0 (by decide) rfl (by decide),
   v4l2_next_roundrobin_ownership.2.1 1 5 own0 (by decide) rfl (by decide),
   v4l2_next_roundrobin_ownership.2.2.1 9 7 ⟨7, 4, some 7⟩ rfl (by decide),
   v4l2_next_roundrobin_ownership.2.2.2.1 9 7 ⟨7, 1, some 7⟩ rfl (by decide),
   v4l2_next_roundrobin_ownership.2.2.2.2 [0, 1, 0, 1]⟩

/-! ## C3 -/

/-- C3: device registry reference counting (`v4l2_start` lines 1630-1648,
`v4l2_cleanup` lines 1759-1792).  A first open of `path` negotiates and
registers a handle with `usage_count = 1` and returns its descriptor; a
second open of the same path returns the same handle identity (the same
descriptor) with `usage_count = 2` and performs no negotiation (no event);
one close only decrements, leaving the handle registered with
`usage_count = 1` and producing no teardown side effects; the close that
reaches zero issues stream-off, unmaps the buffers, releases the control
list and removes the handle. -/
theorem v4l2_start_cleanup_refcount :
    ∀ (path : String) (fd fd2 : Int) (b : Bool),
      v4l2_start [] path fd true =
        ([⟨path, fd, 1⟩], fd, [DevEvent.negotiate path]) ∧
      v4l2_start [⟨path, fd, 1⟩] path fd2 b = ([⟨path, fd, 2⟩], fd, []) ∧
      v4l2_cleanup [⟨path, fd, 2⟩] fd = ([⟨path, fd, 1⟩], []) ∧
      v4l2_cleanup [⟨path, fd, 1⟩] fd =
        ([], [DevEvent.streamoff fd, DevEvent.unmap fd,
              DevEvent.ctrlfree fd, DevEvent.removed fd]) := by
  intro path fd fd2 b
  refine ⟨rfl, ?_, ?_, ?_⟩
  · simp [v4l2_start, startFind]
  · norm_num [v4l2_cleanup]
  · norm_num [v4l2_cleanup]

/-! ## C10 -/

/-- Helper for C10: the format scan of `v4l2_palette_valid` leaves its
latch untouched when the queried id is not advertised. -/
theorem palette_scan_no_match (pid : Nat) :
    ∀ (l : List Nat) (r : Int), pid ∉ l →
      l.foldl (fun r f => if pid = f then 1 else r) r = r := by
  intro l
  induction l with
  | nil => intro r _; rfl
  | cons f l ih =>
      intro r h
      have h1 : pid ≠ f := fun he => h (he ▸ List.mem_cons_self f l)
      have h2 : pid ∉ l := fun hm => h (List.mem_cons_of_mem f hm)
      simp only [List.foldl_cons, if_neg h1]
      exact ih r h2

/-- C10: `v4l2_palette_valid` (lines 1852-1906) returns 0, not a distinct
error outcome, when the device path cannot be opened; an openable device
that does not advertise the queried palette also yields 0, so the two
situations are indistinguishable at this interface. -/
theorem v4l2_palette_valid_unopenable_indistinct :
    ∀ (fmtsA fmtsB : List Nat) (pal : Int),
      paletteIds.getD pal.toNat 0 ∉ fmtsB →
      v4l2_palette_valid false fmtsA pal = 0 ∧
      v4l2_palette_valid true fmtsB pal = 0 ∧
      v4l2_palette_valid false fmtsA pal =
        v4l2_palette_valid true fmtsB pal := by
  intro fmtsA fmtsB pal h
  have h2 : v4l2_palette_valid true fmtsB pal = 0 := by
    simp only [v4l2_palette_valid]
    exact palette_scan_no_match _ fmtsB 0 h
  exact ⟨rfl, h2, h2.symm⟩

/-- Witness for C10: palette 17 (YUV420) against a device advertising only
YUYV. -/
theorem v4l2_palette_valid_unopenable_indistinct_witness :
    v4l2_palette_valid false [V4L2_PIX_FMT_YUYV] 17 = 0 ∧
    v4l2_palette_valid true [V4L2_PIX_FMT_YUYV] 17 = 0 ∧
    v4l2_palette_valid false [V4L2_PIX_FMT_YUYV] 17 =
      v4l2_palette_valid true [V4L2_PIX_FMT_YUYV] 17 :=
  v4l2_palette_valid_unopenable_indistinct [V4L2_PIX_FMT_YUYV]
    [V4L2_PIX_FMT_YUYV] 17 (by decide)

/-! ## C7 -/

/-- C7: the width/height adjustment at the top of `v4l2_pixfmt_select`
(lines 944-958) replaces a positive dimension that is not a multiple of 8
with the smallest multiple of 8 greater than or equal to it, leaves
multiples of 8 unchanged, and is idempotent; and every
`v4l2_pixfmt_select` run whose (possibly defaulted) user palette index is
in range issues its first format trial with exactly the adjusted
dimensions — so the replacement happens before any trial. -/
theorem negotiation_dims_mod8_round_up :
    ∀ w : Int, 0 < w →
      (8 ∣ conf_dim_adj w ∧ w ≤ conf_dim_adj w ∧
        (∀ m : Int, 8 ∣ m → w ≤ m → conf_dim_adj w ≤ m) ∧
        conf_dim_adj (conf_dim_adj w) = conf_dim_adj w) ∧
      (∀ (d : DevEcho) (ps : List ParmItem) (fmts : List Nat) (hh : Int),
        0 ≤ (if userPaletteIdx ps = 21 then 17 else userPaletteIdx ps) →
        (if userPaletteIdx ps = 21 then 17 else userPaletteIdx ps) ≤
          (V4L2_PALETTE_COUNT_MAX : Int) →
        (v4l2_pixfmt_select d ps fmts w hh).2.head? =
          some (paletteIds.getD
              (if userPaletteIdx ps = 21 then 17 else userPaletteIdx ps).toNat 0,
            conf_dim_adj w, conf_dim_adj hh)) := by
  intro w hw
  have hb8 : (0 : Int) ≤ 8 := by norm_num
  have hm : w.tmod 8 = w % 8 := Int.tmod_eq_emod (le_of_lt hw) hb8
  have key : 8 ∣ conf_dim_adj w ∧ w ≤ conf_dim_adj w ∧
      conf_dim_adj w < w + 8 := by
    unfold conf_dim_adj
    rw [hm]
    by_cases h : w % 8 = 0
    · rw [if_neg (by simpa using h)]
      omega
    · rw [if_pos (by simpa using h)]
      omega
  constructor
  · refine ⟨key.1, key.2.1, ?_, ?_⟩
    · intro m hm8 hwm
      have h1 := key.1
      have h2 := key.2.2
      omega
    · have hpos : 0 < conf_dim_adj w := lt_of_lt_of_le hw key.2.1
      have hz : (conf_dim_adj w).tmod 8 = 0 := by
        rw [Int.tmod_eq_emod (le_of_lt hpos) hb8]
        omega
      have hlem : ∀ x : Int, x.tmod 8 = 0 → conf_dim_adj x = x := by
        intro x hx
        unfold conf_dim_adj
        rw [if_neg (by simpa using hx)]
      exact hlem _ hz
  · intro d ps fmts hh h1 h2
    unfold v4l2_pixfmt_select
    rw [if_pos ⟨h1, h2⟩]
    dsimp only
    repeat' split
    all_goals rfl

/-- Witness for C7: requested width 13 rounds up to 16, idempotently, and
a select run on a 13x480 request issues its first trial at 16x480 with the
defaulted palette. -/
theorem negotiation_dims_mod8_round_up_witness :
    8 ∣ conf_dim_adj 13 ∧ (13 : Int) ≤ conf_dim_adj 13 ∧
    conf_dim_adj 13 ≤ 16 ∧
    conf_dim_adj (conf_dim_adj 13) = conf_dim_adj 13 ∧
    (v4l2_pixfmt_select devEchoNone [] [] 13 480).2.head? =
      some (V4L2_PIX_FMT_YUV420, 16, 480) :=
  ⟨(negotiation_dims_mod8_round_up 13 (by norm_num)).1.1,
   (negotiation_dims_mod8_round_up 13 (by norm_num)).1.2.1,
   (negotiation_dims_mod8_round_up 13 (by norm_num)).1.2.2.1 16
     ⟨2, rfl⟩ (by norm_num),
   (negotiation_dims_mod8_round_up 13 (by norm_num)).1.2.2.2,
   (negotiation_dims_mod8_round_up 13 (by norm_num)).2 devEchoNone [] [] 480
     (by decide) (by decide)⟩

/-! ## C6 -/

/-- Counterexample for C6: a device reporting a nonzero stride of 8 for a
negotiated width of 16 (a stride smaller than the width, hence not a
multiple of it).  The claim as stated computes a committed width
`wd + ((bpl % wd) / (bpl / wd))`; the code instead rejects this trial
outright (`wd > bpl` is the "Width must be less than stride" error, lines
831-835), committing no width at all. -/
theorem v4l2_pixfmt_stride_small_stride_cex :
    v4l2_pixfmt_stride 16 8 = none ∧
    (8 : Int) ≠ 0 ∧ (8 : Int).tmod 16 ≠ 0 := by decide

/-- C6 amended: the stride-padding arithmetic of `v4l2_pixfmt_stride`
(lines 807-861), restricted to strides at least as large as the width: a
nonzero stride `bpl ≥ wd` that is not an exact multiple of `wd` commits
width `wd + ((bpl % wd) / (bpl / wd))` (truncated C division); an exact
multiple or a zero stride leaves the width unchanged; a nonzero stride
smaller than the width aborts the trial instead of committing anything.
`v4l2_pixfmt_adj` (lines 864-889) then aborts the negotiation of the
format whenever the (re)committed dimensions stopped being multiples of 8
while the configured ones are, and commits them otherwise. -/
theorem v4l2_pixfmt_stride_adjust_amended :
    ∀ wd bpl : Int, 0 < wd →
      (bpl = 0 → v4l2_pixfmt_stride wd bpl = some wd) ∧
      (0 < bpl → bpl.tmod wd = 0 → v4l2_pixfmt_stride wd bpl = some wd) ∧
      (bpl.tmod wd ≠ 0 → wd ≤ bpl →
        v4l2_pixfmt_stride wd bpl =
          some (wd + (bpl.tmod wd).tdiv (bpl.tdiv wd))) ∧
      (0 < bpl → bpl < wd → v4l2_pixfmt_stride wd bpl = none) ∧
      (∀ confw confh devw devh : Int,
        confw.tmod 8 = 0 → confh.tmod 8 = 0 →
        devw.tmod 8 ≠ 0 ∨ devh.tmod 8 ≠ 0 →
        v4l2_pixfmt_adj confw confh devw devh = none) ∧
      (∀ confw confh devw devh : Int,
        devw.tmod 8 = 0 → devh.tmod 8 = 0 →
        v4l2_pixfmt_adj confw confh devw devh = some (devw, devh)) := by
  intro wd bpl hwd
  refine ⟨?_, ?_, ?_, ?_, ?_, ?_⟩
  · intro h0
    simp [v4l2_pixfmt_stride, h0]
  · intro hb hmod
    have hne : bpl ≠ 0 := ne_of_gt hb
    have hge : ¬ wd > bpl := by
      intro hgt
      have : bpl.tmod wd = bpl := by
        rw [Int.tmod_eq_emod (le_of_lt hb) (le_of_lt hwd)]
        exact Int.emod_eq_of_lt (le_of_lt hb) hgt
      omega
    unfold v4l2_pixfmt_stride
    rw [if_neg hne, if_neg hge, if_pos (Or.inr hmod)]
  · intro hmod hle
    have hb0 : bpl ≠ 0 := by
      intro h
      rw [h] at hmod
      exact hmod (Int.zero_tmod wd)
    have hgt : ¬ wd > bpl := by omega
    have hor : ¬ (wd = bpl ∨ bpl.tmod wd = 0) := by
      rintro (h | h)
      · rw [h] at hmod
        exact hmod Int.tmod_self
      · exact hmod h
    unfold v4l2_pixfmt_stride
    rw [if_neg hb0, if_neg hgt, if_neg hor]
  · intro hb hlt
    unfold v4l2_pixfmt_stride
    rw [if_neg (ne_of_gt hb), if_pos (by omega)]
  · intro cw chh dw dh h1 h2 h3
    have hdiff : dw ≠ cw ∨ dh ≠ chh := by
      rcases h3 with h | h
      · exact Or.inl (fun he => h (he ▸ h1))
      · exact Or.inr (fun he => h (he ▸ h2))
    unfold v4l2_pixfmt_adj
    rw [if_pos hdiff, if_pos h3]
  · intro cw chh dw dh h1 h2
    unfold v4l2_pixfmt_adj
    by_cases hd : dw ≠ cw ∨ dh ≠ chh
    · rw [if_pos hd, if_neg (by simp [h1, h2])]
    · rw [if_neg hd]
      push_neg at hd
      rw [hd.1, hd.2]

/-- Witness for C6 at concrete inputs: stride 0 and exact-multiple stride
leave width 640; stride 1000 on width 640 pads; stride 8 on width 16
aborts; a non-multiple-of-8 adjusted width aborts the format; a
multiple-of-8 one is committed. -/
theorem v4l2_pixfmt_stride_adjust_amended_witness :
    v4l2_pixfmt_stride 640 0 = some 640 ∧
    v4l2_pixfmt_stride 640 1280 = some 640 ∧
    v4l2_pixfmt_stride 640 1000 =
      some (640 + ((1000 : Int).tmod 640).tdiv ((1000 : Int).tdiv 640)) ∧
    v4l2_pixfmt_stride 16 8 = none ∧
    v4l2_pixfmt_adj 640 480 1001 480 = none ∧
    v4l2_pixfmt_adj 640 480 1000 480 = some (1000, 480) :=
  ⟨(v4l2_pixfmt_stride_adjust_amended 640 0 (by norm_num)).1 rfl,
   (v4l2_pixfmt_stride_adjust_amended 640 1280 (by norm_num)).2.1
     (by norm_num) (by decide),
   (v4l2_pixfmt_stride_adjust_amended 640 1000 (by norm_num)).2.2.1
     (by decide) (by norm_num),
   (v4l2_pixfmt_stride_adjust_amended 16 8 (by norm_num)).2.2.2.1
     (by norm_num) (by norm_num),
   (v4l2_pixfmt_stride_adjust_amended 640 0 (by norm_num)).2.2.2.2.1
     640 480 1001 480 (by decide) (by decide) (Or.inl (by decide)),
   (v4l2_pixfmt_stride_adjust_amended 640 0 (by norm_num)).2.2.2.2.2
     640 480 1000 480 (by decide) (by decide)⟩

/-! ## C5 -/

/-- Counterexample for C5 (`v4l2_autobright`, lines 558-598): brightness
control with range [-100, 50] currently at 40, user target 2000, frame of
constant luminance 170.  The scaled sample is 100, strictly above the
hysteresis window's upper bound `min(target + 20, maximum) = 50`, yet the
staged control value moves UP from 40 to 134 — the damped step
`(avg - target)/20 + 1` is negative when the target exceeds the sample by
more than the damper allows — and even lands above the control maximum.
The claim's universally quantified "strictly decreases" is therefore
false on the code. -/
theorem v4l2_autobright_nonmonotone_cex :
    (v4l2_autobright [⟨"brightness", 2000⟩] [cex5ctrl] 1
        (fun _ => 170) 10).map (fun d => d.ctrl_newval) = [134] ∧
    abAvg (fun _ => 170) 10 50 (-100) = 100 ∧
    (100 : Int) > min (2000 + 20) 50 ∧
    cex5ctrl.ctrl_currval = 40 ∧
    ¬ ((134 : Int) < 40) ∧ (134 : Int) > cex5ctrl.ctrl_maximum := by
  decide

/-- C5 amended: the hysteresis decision of `v4l2_autobright`, provided the
target lies within the control's [minimum, maximum] range and the current
value has room to move: a scaled sample strictly above
`min(target + 20, maximum)` strictly decreases the staged value, never
below the minimum; a sample strictly below `max(target - 20, minimum)`
strictly increases it, never above the maximum; a sample within the
hysteresis window leaves the decision empty, and an empty decision leaves
the whole controller's descriptor array untouched. -/
theorem v4l2_autobright_hysteresis_amended :
    ∀ target dv mn mx avg : Int,
      (mn ≤ target → target ≤ mx → mn < dv → avg > min (target + 20) mx →
        ∃ v, abDecide target dv mn mx avg = some v ∧ v < dv ∧ mn ≤ v) ∧
      (mn ≤ target → target ≤ mx → dv < mx → avg < max (target - 20) mn →
        ∃ v, abDecide target dv mn mx avg = some v ∧ dv < v ∧ v ≤ mx) ∧
      (max (target - 20) mn ≤ avg → avg ≤ min (target + 20) mx →
        abDecide target dv mn mx avg = none) ∧
      (∀ (params : List ParmItem) (ctrls : List DevCtrl) (method : Int)
          (image : Nat → Int) (ms : Int),
        abDecide (abCtrlScan ctrls method (abTarget params method)).2.2.2
            (abCtrlScan ctrls method (abTarget params method)).1
            (abCtrlScan ctrls method (abTarget params method)).2.2.1
            (abCtrlScan ctrls method (abTarget params method)).2.1
            (abAvg image ms (abCtrlScan ctrls method (abTarget params method)).2.1
              (abCtrlScan ctrls method (abTarget params method)).2.2.1) = none →
        v4l2_autobright params ctrls method image ms = ctrls) := by
  intro target dv mn mx avg
  refine ⟨?_, ?_, ?_, ?_⟩
  · intro h0 h1 h2 h3
    have hat : 1 ≤ avg - target := by
      rcases le_total (target + 20) mx with hc | hc
      · rw [min_eq_left hc] at h3
        omega
      · rw [min_eq_right hc] at h3
        omega
    have h20 : (avg - target).tdiv 20 = (avg - target) / 20 :=
      Int.tdiv_eq_ediv (by omega) (by norm_num)
    have hq : 0 ≤ (avg - target) / 20 := Int.ediv_nonneg (by omega) (by norm_num)
    have hge1 : 1 ≤ (avg - target).tdiv 20 + 1 := by
      rw [h20]
      omega
    simp only [abDecide]
    rw [if_pos h3]
    by_cases hc2 : dv > min ((avg - target).tdiv 20 + 1) (dv - mn) + 1 - mn
    · refine ⟨dv - min ((avg - target).tdiv 20 + 1) (dv - mn),
        by rw [if_pos hc2], ?_, ?_⟩
      · have hmin : 1 ≤ min ((avg - target).tdiv 20 + 1) (dv - mn) :=
          le_min hge1 (by omega)
        omega
      · have := min_le_right ((avg - target).tdiv 20 + 1) (dv - mn)
        omega
    · exact ⟨mn, by rw [if_neg hc2], by omega, le_refl mn⟩
  · intro h0 h1 h2 h3
    have hwlwh : max (target - 20) mn ≤ min (target + 20) mx :=
      le_min (max_le (by omega) (by omega)) (max_le (by omega) (by omega))
    have hnot : ¬ avg > min (target + 20) mx := by omega
    have hat : 1 ≤ target - avg := by
      rcases le_total mn (target - 20) with hc | hc
      · rw [max_eq_left hc] at h3
        omega
      · rw [max_eq_right hc] at h3
        omega
    have h20 : (target - avg).tdiv 20 = (target - avg) / 20 :=
      Int.tdiv_eq_ediv (by omega) (by norm_num)
    have hq : 0 ≤ (target - avg) / 20 := Int.ediv_nonneg (by omega) (by norm_num)
    have hge1 : 1 ≤ (target - avg).tdiv 20 + 1 := by
      rw [h20]
      omega
    simp only [abDecide]
    rw [if_neg hnot, if_pos h3]
    by_cases hc2 : dv < mx - min ((target - avg).tdiv 20 + 1) (mx - dv)
    · refine ⟨dv + min ((target - avg).tdiv 20 + 1) (mx - dv),
        by rw [if_pos hc2], ?_, ?_⟩
      · have hmin : 1 ≤ min ((target - avg).tdiv 20 + 1) (mx - dv) :=
          le_min hge1 (by omega)
        omega
      · have := min_le_right ((target - avg).tdiv 20 + 1) (mx - dv)
        omega
    · exact ⟨mx, by rw [if_neg hc2], by omega, le_refl mx⟩
  · intro h1 h2
    simp only [abDecide]
    rw [if_neg (by omega), if_neg (by omega)]
  · intro params ctrls method image ms hnone
    unfold v4l2_autobright
    by_cases hm0 : method = 0 ∨ method > 3
    · rw [if_pos hm0]
    · rw [if_neg hm0]
      by_cases hdv : (abCtrlScan ctrls method (abTarget params method)).1 = -1
      · simp [hdv]
      · simp [hdv, hnone]

/-- Witness for C5's amended theorem: control range [0, 50], target 10,
current value 30; samples 40 (above window), -20 (below window) and 15
(within window), plus the untouched-controller conjunct on an empty state. -/
theorem v4l2_autobright_hysteresis_amended_witness :
    (∃ v, abDecide 10 30 0 50 40 = some v ∧ v < 30 ∧ (0 : Int) ≤ v) ∧
    (∃ v, abDecide 10 30 0 50 (-20) = some v ∧ (30 : Int) < v ∧ v ≤ 50) ∧
    abDecide 10 30 0 50 15 = none ∧
    v4l2_autobright [] [] 1 (fun _ => 0) 0 = [] :=
  ⟨(v4l2_autobright_hysteresis_amended 10 30 0 50 40).1
     (by norm_num) (by norm_num) (by norm_num) (by norm_num),
   (v4l2_autobright_hysteresis_amended 10 30 0 50 (-20)).2.1
     (by norm_num) (by norm_num) (by norm_num) (by norm_num),
   (v4l2_autobright_hysteresis_amended 10 30 0 50 15).2.2.1
     (by norm_num) (by norm_num),
   (v4l2_autobright_hysteresis_amended 10 30 0 50 15).2.2.2
     [] [] 1 (fun _ => 0) 0 (by decide)⟩

/-! ## C8 -/

/-- Helper for C8: a non-matching parameter changes nothing and warns
nothing. -/
theorem parmApply_no_match {d : DevCtrl} {p : ParmItem}
    (h : parmMatch d p = false) : parmApply d p = (d, 0) := by
  simp [parmApply, h]

/-- Helper for C8: applying a parameter never changes the fields the name
match reads. -/
theorem parmApply_match_fields (d : DevCtrl) (p : ParmItem) :
    (parmApply d p).1.ctrl_iddesc = d.ctrl_iddesc ∧
    (parmApply d p).1.ctrl_name = d.ctrl_name := by
  unfold parmApply
  repeat' split
  all_goals exact ⟨rfl, rfl⟩

/-- Helper for C8: the match predicate is invariant under staging. -/
theorem parmMatch_parmApply (d : DevCtrl) (p q : ParmItem) :
    parmMatch (parmApply d p).1 q = parmMatch d q := by
  have h := parmApply_match_fields d p
  unfold parmMatch
  rw [h.1, h.2]

/-- Helper for C8: folding over parameters none of which match leaves the
descriptor and the warning count untouched. -/
theorem fold_parmStep_no_match :
    ∀ (ps : List ParmItem) (d : DevCtrl) (n : Nat),
      (∀ q ∈ ps, parmMatch d q = false) →
      ps.foldl parmStep (d, n) = (d, n) := by
  intro ps
  induction ps with
  | nil => intro d n _; rfl
  | cons q ps ih =>
      intro d n h
      have hq : parmMatch d q = false := h q (List.mem_cons_self q ps)
      have hs : parmStep (d, n) q = (d, n) := by
        simp [parmStep, parmApply_no_match hq]
      rw [List.foldl_cons, hs]
      exact ih d n (fun r hr => h r (List.mem_cons_of_mem q hr))

/-- Helper for C8: with exactly one matching parameter in the list, the
staged result is that of applying the matching parameter alone. -/
theorem ctrlParmsSet_single_match (d : DevCtrl) (ps1 ps2 : List ParmItem)
    (p : ParmItem) (h1 : ∀ q ∈ ps1, parmMatch d q = false)
    (h2 : ∀ q ∈ ps2, parmMatch d q = false) :
    ctrlParmsSet d (ps1 ++ p :: ps2) = parmApply d p := by
  unfold ctrlParmsSet
  rw [List.foldl_append, fold_parmStep_no_match ps1 d 0 h1, List.foldl_cons]
  have hps : parmStep (d, 0) p = ((parmApply d p).1, (parmApply d p).2) := by
    simp [parmStep]
  rw [hps]
  exact fold_parmStep_no_match ps2 _ _
    (fun q hq => (parmMatch_parmApply d p q).trans (h2 q hq))

/-- C8: the staging pass `v4l2_parms_set` (lines 427-460), for a
well-formed descriptor (minimum ≤ maximum; the below-minimum branch is
checked first in the source, so with an inverted range "the violated
boundary" would be ambiguous).  For a descriptor of integer or menu type
whose (single) matching user value lies below the minimum, the staged
requested value is the minimum and exactly one clamp warning is emitted;
above the maximum, the maximum with exactly one warning; an in-range
value is staged unchanged with no warning; a boolean descriptor's value
is mapped onto 0/1 with no warning. -/
theorem v4l2_parms_set_clamping :
    ∀ (d : DevCtrl) (ps1 ps2 : List ParmItem) (p : ParmItem),
      d.ctrl_minimum ≤ d.ctrl_maximum →
      (∀ q ∈ ps1, parmMatch d q = false) →
      (∀ q ∈ ps2, parmMatch d q = false) →
      parmMatch d p = true →
      ((d.ctrl_type = V4L2_CTRL_TYPE_INTEGER ∨
        d.ctrl_type = V4L2_CTRL_TYPE_MENU) →
        (p.param_value < d.ctrl_minimum →
          ctrlParmsSet d (ps1 ++ p :: ps2) =
            ({ d with ctrl_newval := d.ctrl_minimum }, 1)) ∧
        (p.param_value > d.ctrl_maximum →
          ctrlParmsSet d (ps1 ++ p :: ps2) =
            ({ d with ctrl_newval := d.ctrl_maximum }, 1)) ∧
        (d.ctrl_minimum ≤ p.param_value → p.param_value ≤ d.ctrl_maximum →
          ctrlParmsSet d (ps1 ++ p :: ps2) =
            ({ d with ctrl_newval := p.param_value }, 0))) ∧
      (d.ctrl_type = V4L2_CTRL_TYPE_BOOLEAN →
        ctrlParmsSet d (ps1 ++ p :: ps2) =
          ({ d with ctrl_newval := if p.param_value ≠ 0 then 1 else 0 }, 0)) := by
  intro d ps1 ps2 p hrange h1 h2 hm
  have hstep := ctrlParmsSet_single_match d ps1 ps2 p h1 h2
  constructor
  · intro htype
    have htype' : d.ctrl_type = V4L2_CTRL_TYPE_MENU ∨
        d.ctrl_type = V4L2_CTRL_TYPE_INTEGER := htype.symm
    refine ⟨?_, ?_, ?_⟩
    · intro hlt
      rw [hstep]
      simp [parmApply, hm, htype', hlt]
    · intro hgt
      rw [hstep]
      have hnlt : ¬ p.param_value < d.ctrl_minimum := by omega
      simp [parmApply, hm, htype', hnlt, hgt]
    · intro hge hle
      rw [hstep]
      have hnlt : ¬ p.param_value < d.ctrl_minimum := by omega
      have hngt : ¬ p.param_value > d.ctrl_maximum := by omega
      simp [parmApply, hm, htype', hnlt, hngt]
  · intro htype
    have hnor : ¬ (d.ctrl_type = V4L2_CTRL_TYPE_MENU ∨
        d.ctrl_type = V4L2_CTRL_TYPE_INTEGER) := by
      rw [htype]
      decide
    rw [hstep]
    simp only [parmApply, hm, if_true]
    rw [if_neg hnor, if_pos htype]

/-- Witness for C8: an integer control with range [0, 100] fed 150 clamps
to 100 with one warning; fed 42 stages 42 with no warning; a boolean
control fed 7 stages 1. -/
theorem v4l2_parms_set_clamping_witness :
    ctrlParmsSet ⟨1, V4L2_CTRL_TYPE_INTEGER, 0, 100, 50, 50, false,
        "Gamma", "ID00000001"⟩ [⟨"gamma", 150⟩] =
      (⟨1, V4L2_CTRL_TYPE_INTEGER, 0, 100, 50, 100, false,
        "Gamma", "ID00000001"⟩, 1) ∧
    ctrlParmsSet ⟨1, V4L2_CTRL_TYPE_INTEGER, 0, 100, 50, 50, false,
        "Gamma", "ID00000001"⟩ [⟨"gamma", 42⟩] =
      (⟨1, V4L2_CTRL_TYPE_INTEGER, 0, 100, 50, 42, false,
        "Gamma", "ID00000001"⟩, 0) ∧
    ctrlParmsSet ⟨2, V4L2_CTRL_TYPE_BOOLEAN, 0, 1, 0, 0, false,
        "Flip", "ID00000002"⟩ [⟨"flip", 7⟩] =
      (⟨2, V4L2_CTRL_TYPE_BOOLEAN, 0, 1, 0, 1, false,
        "Flip", "ID00000002"⟩, 0) := by
  refine ⟨?_, ?_, ?_⟩
  · have h := ((v4l2_parms_set_clamping
      ⟨1, V4L2_CTRL_TYPE_INTEGER, 0, 100, 50, 50, false, "Gamma", "ID00000001"⟩
      [] [] ⟨"gamma", 150⟩ (by decide) (by simp) (by simp) (by decide)).1
      (Or.inl rfl)).2.1 (by decide)
    simpa using h
  · have h := ((v4l2_parms_set_clamping
      ⟨1, V4L2_CTRL_TYPE_INTEGER, 0, 100, 50, 50, false, "Gamma", "ID00000001"⟩
      [] [] ⟨"gamma", 42⟩ (by decide) (by simp) (by simp) (by decide)).1
      (Or.inl rfl)).2.2 (by decide) (by decide)
    simpa using h
  · have h := (v4l2_parms_set_clamping
      ⟨2, V4L2_CTRL_TYPE_BOOLEAN, 0, 1, 0, 0, false, "Flip", "ID00000002"⟩
      [] [] ⟨"flip", 7⟩ (by decide) (by simp) (by simp) (by decide)).2 rfl
    simpa using h

/-! ## C9 -/

/-- Helper for C9: closed form of phase 1 — every eligible descriptor is
attempted; a success promotes its current value; the failure flag is the
disjunction of the attempt failures. -/
theorem ctrlsPass1_spec (ok : Int → Int → Bool) :
    ∀ cs : List DevCtrl,
      ctrlsPass1 ok cs =
        (cs.map (fun d => if ctrlEligible d && ok d.ctrl_id d.ctrl_newval
            then { d with ctrl_currval := d.ctrl_newval } else d),
         cs.any (fun d => ctrlEligible d && !(ok d.ctrl_id d.ctrl_newval)),
         (cs.filter ctrlEligible).map (fun d => d.ctrl_id)) := by
  intro cs
  induction cs with
  | nil => rfl
  | cons d cs ih =>
      rcases Bool.eq_false_or_eq_true (ctrlEligible d) with he | he
      · rcases Bool.eq_false_or_eq_true (ok d.ctrl_id d.ctrl_newval)
          with hok | hok
        · simp [ctrlsPass1, he, hok, ih, List.filter_cons, List.any_cons]
        · simp [ctrlsPass1, he, hok, ih, List.filter_cons, List.any_cons]
      · simp [ctrlsPass1, he, ih, List.filter_cons, List.any_cons]

/-- Helper for C9: closed form of phase 2 — every still-eligible
descriptor is attempted once; a failure rolls it back through
`v4l2_parm_reset`, threading the user-parameter rewrites in descriptor
order and counting one warning each. -/
theorem ctrlsPass2_spec (ok : Int → Int → Bool) :
    ∀ (cs : List DevCtrl) (ps : List ParmItem),
      ctrlsPass2 ok cs ps =
        (cs.map (fun d => if ctrlEligible d then
              (if ok d.ctrl_id d.ctrl_newval
               then { d with ctrl_currval := d.ctrl_newval }
               else { d with ctrl_newval := d.ctrl_currval })
            else d),
         (cs.filter (fun d =>
             ctrlEligible d && !(ok d.ctrl_id d.ctrl_newval))).foldl
           (fun ps d => (v4l2_parm_reset ps d).1) ps,
         (cs.filter (fun d =>
             ctrlEligible d && !(ok d.ctrl_id d.ctrl_newval))).length,
         (cs.filter ctrlEligible).map (fun d => d.ctrl_id)) := by
  intro cs
  induction cs with
  | nil => intro ps; rfl
  | cons d cs ih =>
      intro ps
      rcases Bool.eq_false_or_eq_true (ctrlEligible d) with he | he
      · rcases Bool.eq_false_or_eq_true (ok d.ctrl_id d.ctrl_newval)
          with hok | hok
        · simp [ctrlsPass2, he, hok, ih, List.filter_cons]
        · simp [ctrlsPass2, he, hok, ih, List.filter_cons, v4l2_parm_reset]
      · simp [ctrlsPass2, he, ih, List.filter_cons]

/-- Helper for C9: what one phase-1 step does to the fields phase 2
reads: identifier and requested value are untouched, eligibility for
phase 2 is exactly "was eligible and failed phase 1", and a phase-1
failure leaves the descriptor unchanged. -/
theorem ctrlsPass1_elem (ok1 : Int → Int → Bool) (d : DevCtrl) :
    (if ctrlEligible d && ok1 d.ctrl_id d.ctrl_newval
       then { d with ctrl_currval := d.ctrl_newval } else d).ctrl_id =
        d.ctrl_id ∧
    (if ctrlEligible d && ok1 d.ctrl_id d.ctrl_newval
       then { d with ctrl_currval := d.ctrl_newval } else d).ctrl_newval =
        d.ctrl_newval ∧
    ctrlEligible (if ctrlEligible d && ok1 d.ctrl_id d.ctrl_newval
       then { d with ctrl_currval := d.ctrl_newval } else d) =
      (ctrlEligible d && !(ok1 d.ctrl_id d.ctrl_newval)) ∧
    ((ctrlEligible d && !(ok1 d.ctrl_id d.ctrl_newval)) = true →
      (if ctrlEligible d && ok1 d.ctrl_id d.ctrl_newval
        then { d with ctrl_currval := d.ctrl_newval } else d) = d) := by
  rcases Bool.eq_false_or_eq_true (ctrlEligible d) with he | he
  · rcases Bool.eq_false_or_eq_true (ok1 d.ctrl_id d.ctrl_newval)
      with hok | hok
    · simp [he, hok]
      simp [ctrlEligible]
    · simp [he, hok]
  · simp [he]

/-- Helper for C9: composing the per-descriptor phase-1 and phase-2
outcomes gives the claimed per-descriptor result. -/
theorem ctrlsSetResultSpec_compose (ok1 ok2 : Int → Int → Bool)
    (d : DevCtrl) :
    (fun d1 => if ctrlEligible d1 then
        (if ok2 d1.ctrl_id d1.ctrl_newval
         then { d1 with ctrl_currval := d1.ctrl_newval }
         else { d1 with ctrl_newval := d1.ctrl_currval })
      else d1)
      (if ctrlEligible d && ok1 d.ctrl_id d.ctrl_newval
        then { d with ctrl_currval := d.ctrl_newval } else d) =
    ctrlsSetResultSpec ok1 ok2 d := by
  rcases Bool.eq_false_or_eq_true (ctrlEligible d) with he | he
  · rcases Bool.eq_false_or_eq_true (ok1 d.ctrl_id d.ctrl_newval)
      with hok | hok
    · simp [ctrlsSetResultSpec, he, hok]
    · simp [ctrlsSetResultSpec, he, hok]
  · simp [ctrlsSetResultSpec, he]

/-- C9: the two-phase control application `v4l2_ctrls_set`
(lines 339-409) with `v4l2_parm_reset` (lines 307-337), on a ready
device.  Conjuncts, in order: the operation never returns a fatal error;
phase 1 attempts exactly the non-menu-item descriptors whose requested
value differs from the current one; phase 2 retries exactly the phase-1
failures, once each (and in particular runs no attempt at all when
phase 1 had no failure); the final descriptor state is the claimed
per-descriptor outcome, a still-failing descriptor ending with its
requested value rolled back to the last-known-good current value; the
user parameters end rewritten by exactly the rollbacks, in order; and one
rollback warning is reported per descriptor still failing after
phase 2. -/
theorem v4l2_ctrls_set_two_phase :
    ∀ (ok1 ok2 : Int → Int → Bool) (cs : List DevCtrl) (ps : List ParmItem),
      (v4l2_ctrls_set true ok1 ok2 cs ps).1 = 0 ∧
      (v4l2_ctrls_set true ok1 ok2 cs ps).2.2.2.2.1 =
        (cs.filter ctrlEligible).map (fun d => d.ctrl_id) ∧
      (v4l2_ctrls_set true ok1 ok2 cs ps).2.2.2.2.2 =
        (cs.filter (fun d =>
            ctrlEligible d && !(ok1 d.ctrl_id d.ctrl_newval))).map
          (fun d => d.ctrl_id) ∧
      (v4l2_ctrls_set true ok1 ok2 cs ps).2.1 =
        cs.map (ctrlsSetResultSpec ok1 ok2) ∧
      (v4l2_ctrls_set true ok1 ok2 cs ps).2.2.1 =
        (cs.filter (ctrlRolledBack ok1 ok2)).foldl
          (fun ps d => (v4l2_parm_reset ps d).1) ps ∧
      (v4l2_ctrls_set true ok1 ok2 cs ps).2.2.2.1 =
        (cs.filter (ctrlRolledBack ok1 ok2)).length := by
  intro ok1 ok2 cs ps
  simp only [v4l2_ctrls_set, Bool.not_true, Bool.false_eq_true, if_false,
    ctrlsPass1_spec, ctrlsPass2_spec]
  rcases Bool.eq_false_or_eq_true
    (cs.any fun d => ctrlEligible d && !(ok1 d.ctrl_id d.ctrl_newval))
    with hany | hany
  case inr =>
    simp only [hany, Bool.false_eq_true, if_false]
    have hnone : ∀ d ∈ cs,
        ¬ (ctrlEligible d && !(ok1 d.ctrl_id d.ctrl_newval)) = true := by
      rw [List.any_eq_false] at hany
      exact hany
    have hfilt : cs.filter (fun d =>
        ctrlEligible d && !(ok1 d.ctrl_id d.ctrl_newval)) = [] := by
      rw [List.filter_eq_nil_iff]
      exact hnone
    have hfilt2 : cs.filter (ctrlRolledBack ok1 ok2) = [] := by
      rw [List.filter_eq_nil_iff]
      intro d hd hc
      apply hnone d hd
      unfold ctrlRolledBack at hc
      simp only [Bool.and_eq_true] at hc
      rw [Bool.and_eq_true]
      exact hc.1
    refine ⟨by trivial, by trivial, ?_, ?_, ?_, ?_⟩
    · rw [hfilt]
      rfl
    · apply List.map_congr_left
      intro d hd
      have hno := hnone d hd
      rcases Bool.eq_false_or_eq_true (ctrlEligible d) with he | he
      · rcases Bool.eq_false_or_eq_true (ok1 d.ctrl_id d.ctrl_newval)
          with hok | hok
        · simp [ctrlsSetResultSpec, he, hok]
        · exact absurd (by rw [he, hok]; rfl) hno
      · simp [ctrlsSetResultSpec, he]
    · rw [hfilt2]
      rfl
    · rw [hfilt2]
      rfl
  · simp only [hany, eq_self_iff_true, if_true]
    have hfilter_map : ∀ p : DevCtrl → Bool,
        (cs.map (fun d => if ctrlEligible d && ok1 d.ctrl_id d.ctrl_newval
            then { d with ctrl_currval := d.ctrl_newval } else d)).filter p =
          (cs.filter (fun d =>
            p (if ctrlEligible d && ok1 d.ctrl_id d.ctrl_newval
               then { d with ctrl_currval := d.ctrl_newval } else d))).map
            (fun d => if ctrlEligible d && ok1 d.ctrl_id d.ctrl_newval
               then { d with ctrl_currval := d.ctrl_newval } else d) := by
      intro p
      simpa [Function.comp] using List.filter_map
        (fun d => if ctrlEligible d && ok1 d.ctrl_id d.ctrl_newval
          then { d with ctrl_currval := d.ctrl_newval } else d) cs
    refine ⟨by trivial, by trivial, ?_, ?_, ?_, ?_⟩
    · rw [hfilter_map, List.map_map]
      rw [List.filter_congr (fun d _ => (ctrlsPass1_elem ok1 d).2.2.1)]
      apply List.map_congr_left
      intro d hd
      simpa [Function.comp] using (ctrlsPass1_elem ok1 d).1
    · rw [List.map_map]
      apply List.map_congr_left
      intro d _
      simpa [Function.comp] using ctrlsSetResultSpec_compose ok1 ok2 d
    · rw [hfilter_map]
      rw [List.filter_congr (fun d _ => by
        rw [(ctrlsPass1_elem ok1 d).2.2.1, (ctrlsPass1_elem ok1 d).1,
          (ctrlsPass1_elem ok1 d).2.1])]
      rw [List.foldl_map]
      apply List.foldl_ext
      intro a d hd
      have hmem := List.of_mem_filter hd
      have hfail : (ctrlEligible d && !(ok1 d.ctrl_id d.ctrl_newval)) = true := by
        unfold ctrlRolledBack at hmem
        simp only [Bool.and_eq_true] at hmem
        rw [Bool.and_eq_true]
        exact hmem.1
      rw [(ctrlsPass1_elem ok1 d).2.2.2 hfail]
    · rw [hfilter_map, List.length_map]
      rw [List.filter_congr (fun d _ => by
        rw [(ctrlsPass1_elem ok1 d).2.2.1, (ctrlsPass1_elem ok1 d).1,
          (ctrlsPass1_elem ok1 d).2.1])]
      rfl

/-! ## C4 -/

/-- Helper for C4: the catalog loop leaves the accumulator alone when no
catalog entry carries the advertised format. -/
theorem foldl_catstep_no_match (f : Nat) :
    ∀ (l : List (Nat × Nat)) (acc : Int),
      (∀ p ∈ l, p.2 ≠ f) →
      l.foldl (fun a p =>
        if p.2 = f ∧ p.2 ≠ V4L2_PIX_FMT_H264 then (p.1 : Int) else a) acc =
        acc := by
  intro l
  induction l with
  | nil => intro acc _; rfl
  | cons p l ih =>
      intro acc h
      have hp : p.2 ≠ f := h p (List.mem_cons_self p l)
      rw [List.foldl_cons, if_neg (fun hc => hp hc.1)]
      exact ih acc (fun q hq => h q (List.mem_cons_of_mem p hq))

/-- Helper for C4: an advertised format outside the catalog does not move
`indx_palette`. -/
theorem catScan_not_mem (f : Nat) (hf : f ∉ paletteIds) (acc : Int) :
    catScan acc f = acc := by
  apply foldl_catstep_no_match
  intro p hp hc
  have hg := List.mk_mem_enum_iff_getElem?.1 (by
    simpa using hp :
    (p.1, p.2) ∈ paletteIds.enum)
  exact hf (hc ▸ List.getElem?_mem hg)

/-- Helper for C4: a non-H264 catalog format always drives `indx_palette`
to its own catalog index, whatever the accumulator held. -/
theorem catScan_mem (b : Nat) (hb : b ∈ paletteIds)
    (hne : b ≠ V4L2_PIX_FMT_H264) :
    ∃ i : Nat, (∀ acc : Int, catScan acc b = (i : Int)) ∧
      paletteIds.getD i 0 = b := by
  fin_cases hb
  case _ => exact ⟨0, fun acc => rfl, rfl⟩
  case _ => exact ⟨1, fun acc => rfl, rfl⟩
  case _ => exact ⟨2, fun acc => rfl, rfl⟩
  case _ => exact ⟨3, fun acc => rfl, rfl⟩
  case _ => exact ⟨4, fun acc => rfl, rfl⟩
  case _ => exact ⟨5, fun acc => rfl, rfl⟩
  case _ => exact ⟨6, fun acc => rfl, rfl⟩
  case _ => exact ⟨7, fun acc => rfl, rfl⟩
  case _ => exact ⟨8, fun acc => rfl, rfl⟩
  case _ => exact ⟨9, fun acc => rfl, rfl⟩
  case _ => exact ⟨10, fun acc => rfl, rfl⟩
  case _ => exact ⟨11, fun acc => rfl, rfl⟩
  case _ => exact ⟨12, fun acc => rfl, rfl⟩
  case _ => exact ⟨13, fun acc => rfl, rfl⟩
  case _ => exact ⟨14, fun acc => rfl, rfl⟩
  case _ => exact ⟨15, fun acc => rfl, rfl⟩
  case _ => exact ⟨16, fun acc => rfl, rfl⟩
  case _ => exact ⟨17, fun acc => rfl, rfl⟩
  case _ => exact ⟨18, fun acc => rfl, rfl⟩
  case _ => exact ⟨19, fun acc => rfl, rfl⟩
  case _ => exact ⟨20, fun acc => rfl, rfl⟩
  case _ => exact absurd rfl hne

/-- Helper for C4: the fallback scan computes exactly the catalog index of
the last advertised non-H264 catalog format (and -1 when there is none). -/
theorem fallbackIdx_spec :
    ∀ fmts : List Nat,
      (fallbackCandidate fmts = none → fallbackIdx fmts = -1) ∧
      (∀ f, fallbackCandidate fmts = some f →
        ∃ i : Nat, fallbackIdx fmts = (i : Int) ∧ paletteIds.getD i 0 = f) := by
  intro fmts
  induction fmts using List.reverseRecOn with
  | nil =>
      refine ⟨fun _ => rfl, fun f hf => ?_⟩
      simp [fallbackCandidate] at hf
  | append_singleton l b ih =>
      have hfold : fallbackIdx (l ++ [b]) = catScan (fallbackIdx l) b := by
        unfold fallbackIdx
        rw [List.foldl_append]
        rfl
      rcases Bool.eq_false_or_eq_true (catP b) with hb | hb
      · have hcand : fallbackCandidate (l ++ [b]) = some b := by
          unfold fallbackCandidate
          rw [List.filter_append]
          simp [hb, List.getLast?_concat]
        have hmem : b ∈ paletteIds ∧ b ≠ V4L2_PIX_FMT_H264 := by
          simp [catP] at hb
          exact hb
        obtain ⟨i, hscan, hget⟩ := catScan_mem b hmem.1 hmem.2
        constructor
        · intro hcn
          rw [hcand] at hcn
          cases hcn
        · intro f hf
          rw [hcand] at hf
          have hbf : b = f := Option.some.inj hf
          exact ⟨i, by rw [hfold, hscan], hbf ▸ hget⟩
      · have hcand : fallbackCandidate (l ++ [b]) = fallbackCandidate l := by
          unfold fallbackCandidate
          rw [List.filter_append]
          simp [hb]
        have hscan : ∀ acc : Int, catScan acc b = acc := by
          by_cases hbm : b ∈ paletteIds
          · have hbh : b = V4L2_PIX_FMT_H264 := by
              unfold catP at hb
              simp [hbm] at hb
              exact hb
            intro acc
            rw [hbh]
            rfl
          · intro acc
            exact catScan_not_mem b hbm acc
        constructor
        · intro hcn
          rw [hfold, hscan]
          exact ih.1 (hcand ▸ hcn)
        · intro f hf
          rw [hcand] at hf
          obtain ⟨i, hi, hg⟩ := ih.2 f hf
          exact ⟨i, by rw [hfold, hscan, hi], hg⟩

/-- Counterexample for C4: a device advertising two non-H264 catalog
formats, YUYV then GREY, with every trial configuration failing.  After
the defaulted user palette (YUV420, index 17) fails, the fallback issues
exactly one further trial — for GREY, the advertised catalog format that
enumerates last — and declares the fatal error without ever trying YUYV,
although YUYV is an advertised, supported candidate.  The claim's "a trial
for each candidate; fatal only after every candidate has been tried"
is therefore false on the code. -/
theorem v4l2_pixfmt_select_untried_candidate_cex :
    (v4l2_pixfmt_select devEchoNone []
      [V4L2_PIX_FMT_YUYV, V4L2_PIX_FMT_GREY] 640 480).1 = none ∧
    (v4l2_pixfmt_select devEchoNone []
      [V4L2_PIX_FMT_YUYV, V4L2_PIX_FMT_GREY] 640 480).2 =
      [(V4L2_PIX_FMT_YUV420, 640, 480), (V4L2_PIX_FMT_GREY, 640, 480)] ∧
    V4L2_PIX_FMT_YUYV ≠ V4L2_PIX_FMT_H264 ∧
    paletteIds.contains V4L2_PIX_FMT_YUYV = true ∧
    ((v4l2_pixfmt_select devEchoNone []
      [V4L2_PIX_FMT_YUYV, V4L2_PIX_FMT_GREY] 640 480).2.all
        (fun t => t.1 != V4L2_PIX_FMT_YUYV)) = true := by
  decide

/-- C4 amended: when the user-specified (or defaulted) palette trial
fails, the fallback scan of `v4l2_pixfmt_select` commits to a single
candidate — the non-H264 catalog format appearing last in the device's
enumeration order — issues exactly one trial configuration for it (with
the configuration dimensions left by the failed first trial), and returns
a fatal negotiation error either when no advertised format is a usable
catalog format or when that single trial fails. -/
theorem v4l2_pixfmt_select_single_fallback :
    ∀ (d : DevEcho) (ps : List ParmItem) (fmts : List Nat) (w hh : Int)
      (idx : Int) (pfu : Nat) (cw ch : Int),
      (if userPaletteIdx ps = 21 then 17 else userPaletteIdx ps) = idx →
      0 ≤ idx → idx ≤ (V4L2_PALETTE_COUNT_MAX : Int) →
      paletteIds.getD idx.toNat 0 = pfu →
      conf_dim_adj w = cw → conf_dim_adj hh = ch →
      (v4l2_pixfmt_set d pfu cw ch).1 = false →
      ((fallbackCandidate fmts = none →
        v4l2_pixfmt_select d ps fmts w hh = (none, [(pfu, cw, ch)])) ∧
       (∀ f, fallbackCandidate fmts = some f →
        catP f = true ∧
        v4l2_pixfmt_select d ps fmts w hh =
          (if (v4l2_pixfmt_set d f (v4l2_pixfmt_set d pfu cw ch).2.1
                (v4l2_pixfmt_set d pfu cw ch).2.2).1 = true
           then some (f,
             (v4l2_pixfmt_set d f (v4l2_pixfmt_set d pfu cw ch).2.1
               (v4l2_pixfmt_set d pfu cw ch).2.2).2.1,
             (v4l2_pixfmt_set d f (v4l2_pixfmt_set d pfu cw ch).2.1
               (v4l2_pixfmt_set d pfu cw ch).2.2).2.2)
           else none,
           [(pfu, cw, ch),
            (f, (v4l2_pixfmt_set d pfu cw ch).2.1,
              (v4l2_pixfmt_set d pfu cw ch).2.2)]))) := by
  intro d ps fmts w hh idx pfu cw ch hidx h0 h21 hpfu hcw hch hfail
  constructor
  · intro hnone
    have hfb : fallbackIdx fmts = -1 := (fallbackIdx_spec fmts).1 hnone
    unfold v4l2_pixfmt_select
    dsimp only
    rw [hcw, hch, hidx, if_pos ⟨h0, h21⟩, hpfu]
    simp only [hfail, Bool.false_eq_true, if_false]
    rw [hfb]
    norm_num
  · intro f hsome
    obtain ⟨i, hfb, hget⟩ := (fallbackIdx_spec fmts).2 f hsome
    have hcp : catP f = true := by
      have hmem := List.mem_of_getLast?_eq_some hsome
      exact List.of_mem_filter hmem
    refine ⟨hcp, ?_⟩
    unfold v4l2_pixfmt_select
    dsimp only
    rw [hcw, hch, hidx, if_pos ⟨h0, h21⟩, hpfu]
    simp only [hfail, Bool.false_eq_true, if_false]
    rw [hfb]
    rw [if_pos (by positivity)]
    have htn : ((i : Int)).toNat = i := Int.toNat_natCast i
    rw [htn, hget]
    split
    · rfl
    · rfl

/-- Witness for C4's amended theorem: failing defaulted palette YUV420 at
640x480 on a device with no advertised catalog format yields the fatal
error after the single user trial; with YUYV advertised (and its trial
failing too), exactly one fallback trial for YUYV precedes the fatal
error. -/
theorem v4l2_pixfmt_select_single_fallback_witness :
    v4l2_pixfmt_select devEchoNone [] [] 640 480 =
      (none, [(V4L2_PIX_FMT_YUV420, 640, 480)]) ∧
    catP V4L2_PIX_FMT_YUYV = true ∧
    v4l2_pixfmt_select devEchoNone [] [V4L2_PIX_FMT_YUYV] 640 480 =
      (none, [(V4L2_PIX_FMT_YUV420, 640, 480),
              (V4L2_PIX_FMT_YUYV, 640, 480)]) :=
  ⟨(v4l2_pixfmt_select_single_fallback devEchoNone [] [] 640 480 17
      V4L2_PIX_FMT_YUV420 640 480 (by decide) (by norm_num) (by decide)
      (by decide) (by decide) (by decide) (by decide)).1 rfl,
   (v4l2_pixfmt_select_single_fallback devEchoNone [] [V4L2_PIX_FMT_YUYV]
      640 480 17 V4L2_PIX_FMT_YUV420 640 480 (by decide) (by norm_num)
      (by decide) (by decide) (by decide) (by decide) (by decide)).2
      V4L2_PIX_FMT_YUYV (by decide)⟩

end MotionV4L2
